import Mathlib

/-!
Shallow embedding of the `bpf` crate (jedisct1/rust-bpf): a small library
that builds classic-BPF socket filter programs and installs them on sockets
via the `setsockopt` system call.

Sources embedded here:
  * `src/bpf_linux.rs`  — the Linux implementation (`Op`, `Prog`, `bpfprog!`,
    `attach_filter`, `detach_filter`, `lock_filter`);
  * `src/bpf_dummy.rs`  — the non-Linux "null variant" (namespace `Dummy`);
  * `src/lib.rs`        — the blanket `BpfFilterAttachable` trait.

Machine integers are modelled as `Nat` with explicit `% 2^w` where the Rust
code narrows (the single `as _` cast in `Prog::new`).  The operating system
is modelled as an oracle (`OS`): a function from a `setsockopt` argument
record to the syscall's return value, plus the thread's last OS error code.
Each filter-control function returns its Rust result together with the list
of `setsockopt` invocations it issued, so that "single atomic syscall" and
"no system call at all" are provable statements.

Sizes of C objects follow the x86_64-unknown-linux-gnu target (LP64):
they are computed by the usual C struct layout algorithm from the field
sizes and alignments, not hard-coded.
-/

/-- Round `off` up to the next multiple of the alignment `a` (C layout). -/
def alignUp (off a : Nat) : Nat := ((off + a - 1) / a) * a

/-- Size of a C-layout struct given its fields as (size, alignment) pairs:
fold the offsets with padding, then pad the total to the struct alignment. -/
def structSize (fields : List (Nat × Nat)) : Nat :=
  let p := fields.foldl (fun acc f => (alignUp acc.1 f.2 + f.1, max acc.2 f.2)) (0, 1)
  alignUp p.1 p.2

/-- Rust `size_of::<Op>()`: `#[repr(C)] { code: u16, jt: u8, jf: u8, k: u32 }`. -/
def size_of_Op : Nat := structSize [(2, 2), (1, 1), (1, 1), (4, 4)]

/-- Size of the kernel's `sock_fprog` record: `{ len: c_ushort, filter: ptr }`
(LP64: pointer is 8 bytes, 8-aligned).  This is the "length + pointer"
in-memory representation the spec says is passed to the kernel. -/
def size_of_sock_fprog : Nat := structSize [(2, 2), (8, 8)]

/-- Rust `size_of::<Option<Box<[Op]>>>()`: a fat pointer (data pointer + length),
the niche optimisation keeps `Option` the same size. -/
def size_of_ops_box : Nat := structSize [(8, 8), (8, 8)]

/-- Rust `size_of::<Prog>()` = `size_of_val(&prog)`: the `#[repr(C)]` struct
`{ len: c_ushort, filter: *mut Op, _ops: Option<Box<[Op]>> }`.  The hidden
`_ops` owner field is part of the struct in every non-rustdoc build
(`#[cfg(not(doc))]` only removes it when building documentation). -/
def size_of_Prog : Nat := structSize [(2, 2), (8, 8), (size_of_ops_box, 8)]

/-- Rust `size_of::<c_int>()`. -/
def size_of_c_int : Nat := 4

/-- One BPF instruction, `Op` in `bpf_linux.rs`.  Field widths in Rust:
`code: u16`, `jt: u8`, `jf: u8`, `k: u32`; the constructor performs no
arithmetic on them, so they are carried as plain `Nat`s. -/
structure Op where
  code : Nat
  jt : Nat
  jf : Nat
  k : Nat
  deriving DecidableEq, Repr

/-- Constructor `Op::new(code, jt, jf, k)`: plain field assembly, no error path. -/
def Op.new (code jt jf k : Nat) : Op := { code := code, jt := jt, jf := jf, k := k }

/-- Struct `Prog` in `bpf_linux.rs`: `#[repr(C)] { len: c_ushort, filter: *mut Op,
_ops: Option<Box<[Op]>> }`.  `filter` is modelled by the array of operations
the raw pointer points to; `_ops` is the hidden owning boxed slice. -/
structure Prog where
  len : Nat
  filter : List Op
  _ops : Option (List Op)
  deriving DecidableEq, Repr

/-- Constructor `Prog::new(ops)`: boxes the vector, stores `len as _` — an unchecked
narrowing cast from `usize` to `c_ushort`, i.e. reduction modulo `2^16` —
records the pointer to the slice and keeps the box as owner. -/
def Prog.new (ops : List Op) : Prog :=
  { len := ops.length % 65536, filter := ops, _ops := some ops }

/-- The `bpfprog!` macro: `Vec::with_capacity(count)` (the count hint only
sizes the initial allocation), one `push` of `Op::new` per tuple, then
`Prog::new`.  The hint never reaches the resulting program. -/
def bpfprog (count : Nat) (tuples : List (Nat × Nat × Nat × Nat)) : Prog :=
  let _capacity := count
  Prog.new (tuples.map fun t => Op.new t.1 t.2.1 t.2.2.1 t.2.2.2)

/-- Constant `SOL_SOCKET` on Linux. -/
def SOL_SOCKET : Int := 1

/-- Constant `SO_ATTACH_FILTER: c_int = 26` from the source. -/
def SO_ATTACH_FILTER : Int := 26

/-- Constant `SO_DETACH_FILTER: c_int = 27` from the source. -/
def SO_DETACH_FILTER : Int := 27

/-- Constant `SO_LOCK_FILTER: c_int = 44` from the source. -/
def SO_LOCK_FILTER : Int := 44

/-- What the `optval` pointer handed to `setsockopt` points to:
nothing (`null()`), the whole `Prog` struct (`&prog as *const _`), or a
`c_int` (`&one as *const _`). -/
inductive OptVal where
  | null : OptVal
  | progStruct : Prog → OptVal
  | intVal : Int → OptVal
  deriving DecidableEq, Repr

/-- The argument record of one `setsockopt` invocation. -/
structure SockoptCall where
  fd : Int
  level : Int
  optname : Int
  optval : OptVal
  optlen : Nat
  deriving DecidableEq, Repr

/-- The operating-system oracle: the return value `setsockopt` produces for
a given argument record, and the thread's last OS error code
(`Error::last_os_error()`). -/
structure OS where
  sockRet : SockoptCall → Int
  lastOsError : Int

/-- The single error kind of the crate: `std::io::Error` obtained from
`Error::last_os_error()`, carrying the platform error code. -/
inductive Error where
  | osError : Int → Error
  deriving DecidableEq, Repr

/-- The `setsockopt` argument record built by `attach_filter`:
`(fd, SOL_SOCKET, SO_ATTACH_FILTER, &prog, size_of_val(&prog))`. -/
def attachCall (fd : Int) (prog : Prog) : SockoptCall :=
  { fd := fd, level := SOL_SOCKET, optname := SO_ATTACH_FILTER,
    optval := OptVal.progStruct prog, optlen := size_of_Prog }

/-- The `setsockopt` argument record built by `detach_filter`:
`(fd, SOL_SOCKET, SO_DETACH_FILTER, null(), 0)`. -/
def detachCall (fd : Int) : SockoptCall :=
  { fd := fd, level := SOL_SOCKET, optname := SO_DETACH_FILTER,
    optval := OptVal.null, optlen := 0 }

/-- The `setsockopt` argument record built by `lock_filter`:
`(fd, SOL_SOCKET, SO_LOCK_FILTER, &one, size_of_val(&one))` with
`one: c_int = 1`. -/
def lockCall (fd : Int) : SockoptCall :=
  { fd := fd, level := SOL_SOCKET, optname := SO_LOCK_FILTER,
    optval := OptVal.intVal 1, optlen := size_of_c_int }

/-- Function `attach_filter(fd, prog)` from `bpf_linux.rs`: one `setsockopt` call;
`Ok(())` when it returns `0`, otherwise `Err(Error::last_os_error())`.
The second component is the list of syscalls issued. -/
def attach_filter (os : OS) (fd : Int) (prog : Prog) :
    Except Error Unit × List SockoptCall :=
  let call := attachCall fd prog
  let ret := os.sockRet call
  (if ret = 0 then Except.ok () else Except.error (Error.osError os.lastOsError),
   [call])

/-- Function `detach_filter(fd)` from `bpf_linux.rs`. -/
def detach_filter (os : OS) (fd : Int) :
    Except Error Unit × List SockoptCall :=
  let call := detachCall fd
  let ret := os.sockRet call
  (if ret = 0 then Except.ok () else Except.error (Error.osError os.lastOsError),
   [call])

/-- Function `lock_filter(fd)` from `bpf_linux.rs`. -/
def lock_filter (os : OS) (fd : Int) :
    Except Error Unit × List SockoptCall :=
  let call := lockCall fd
  let ret := os.sockRet call
  (if ret = 0 then Except.ok () else Except.error (Error.osError os.lastOsError),
   [call])

/-- The `AsRawFd` capability: a type that can yield a raw descriptor. -/
class AsRawFd (α : Type) where
  as_raw_fd : α → Int

/-- Alias of the free `attach_filter`, visible inside the trait namespace. -/
def freeAttachFilter : OS → Int → Prog → Except Error Unit × List SockoptCall :=
  attach_filter

/-- Alias of the free `detach_filter`, visible inside the trait namespace. -/
def freeDetachFilter : OS → Int → Except Error Unit × List SockoptCall :=
  detach_filter

/-- Alias of the free `lock_filter`, visible inside the trait namespace. -/
def freeLockFilter : OS → Int → Except Error Unit × List SockoptCall :=
  lock_filter

/-- Method `BpfFilterAttachable::attach_filter` from `lib.rs`: the blanket method,
whose body forwards to the free `attach_filter(self.as_raw_fd(), prog)`. -/
def BpfFilterAttachable.attach_filter {α : Type} [AsRawFd α]
    (os : OS) (sf : α) (prog : Prog) : Except Error Unit × List SockoptCall :=
  freeAttachFilter os (AsRawFd.as_raw_fd sf) prog

/-- Method `BpfFilterAttachable::detach_filter` from `lib.rs`: forwards to the free
`detach_filter(self.as_raw_fd())`. -/
def BpfFilterAttachable.detach_filter {α : Type} [AsRawFd α]
    (os : OS) (sf : α) : Except Error Unit × List SockoptCall :=
  freeDetachFilter os (AsRawFd.as_raw_fd sf)

/-- Method `BpfFilterAttachable::lock_filter` from `lib.rs`: forwards to the free
`lock_filter(self.as_raw_fd())`. -/
def BpfFilterAttachable.lock_filter {α : Type} [AsRawFd α]
    (os : OS) (sf : α) : Except Error Unit × List SockoptCall :=
  freeLockFilter os (AsRawFd.as_raw_fd sf)

/-- A sample descriptor-yielding value (stands for e.g. `UdpSocket`): any
type implementing `AsRawFd` receives the blanket impl. -/
structure SocketLike where
  rawFd : Int
  deriving DecidableEq, Repr

instance : AsRawFd SocketLike where
  as_raw_fd s := s.rawFd

namespace Dummy

/-- The null-variant `Prog` of `bpf_dummy.rs`: a unit struct carrying no
program state. -/
structure Prog where
  deriving DecidableEq, Repr

/-- Constructor `Prog::default()` for the null variant. -/
def Prog.default : Prog := {}

/-- The null-variant `Op` of `bpf_dummy.rs` (same fields as on Linux). -/
structure Op where
  code : Nat
  jt : Nat
  jf : Nat
  k : Nat
  deriving DecidableEq, Repr

/-- Null-variant `Op::new`. -/
def Op.new (code jt jf k : Nat) : Op := { code := code, jt := jt, jf := jf, k := k }

/-- The null-variant `bpfprog!` macro: expands to `$crate::Prog::default()`,
discarding the count hint and every operation tuple. -/
def bpfprog (count : Nat) (tuples : List (Nat × Nat × Nat × Nat)) : Prog :=
  let _ := count
  let _ := tuples
  Prog.default

/-- Null-variant `attach_filter`: body is `Ok(())`; no syscall is issued. -/
def attach_filter (fd : Int) (prog : Prog) :
    Except Error Unit × List SockoptCall :=
  let _ := fd
  let _ := prog
  (Except.ok (), [])

/-- Null-variant `detach_filter`: body is `Ok(())`; no syscall is issued. -/
def detach_filter (fd : Int) : Except Error Unit × List SockoptCall :=
  let _ := fd
  (Except.ok (), [])

/-- Null-variant `lock_filter`: body is `Ok(())`; no syscall is issued. -/
def lock_filter (fd : Int) : Except Error Unit × List SockoptCall :=
  let _ := fd
  (Except.ok (), [])

end Dummy

/-- An OS oracle whose `setsockopt` always returns `0` (success). -/
def osAlwaysOk : OS := { sockRet := fun _ => 0, lastOsError := 0 }

/-- An OS oracle whose `setsockopt` always returns `-1`, with last error
code `13` (`EACCES`). -/
def osAlwaysFail : OS := { sockRet := fun _ => -1, lastOsError := 13 }

/-- Unfolding lemma for the `len` field written by `Prog::new`. -/
theorem Prog.len_new (ops : List Op) : (Prog.new ops).len = ops.length % 65536 :=
  rfl

/-- Claim C1, counterexample: `Prog::new` does not record a length exactly
equal to the number of operations for every vector — with 65536 operations
the `len as c_ushort` cast truncates the recorded length to 0. -/
theorem C1_counterexample :
    ¬ ((Prog.new (List.replicate 65536 (Op.new 6 0 0 1))).len
        = (List.replicate 65536 (Op.new 6 0 0 1)).length) := by
  rw [Prog.len_new, List.length_replicate]
  norm_num

/-- Claim C1 (amended): for every vector of at most 65535 operations, the
`Program` produced by `Prog::new` — also via the `bpfprog!` macro — records
a length exactly equal to the number of operations supplied, regardless of
the advisory count hint; a mismatched hint never raises an error (the macro
is total and the hint only sizes the initial allocation). -/
theorem C1_theorem :
    (∀ ops : List Op, ops.length ≤ 65535 → (Prog.new ops).len = ops.length) ∧
    (∀ (count : Nat) (tuples : List (Nat × Nat × Nat × Nat)),
      tuples.length ≤ 65535 → (bpfprog count tuples).len = tuples.length) := by
  constructor
  · intro ops h
    simp only [Prog.new]
    exact Nat.mod_eq_of_lt (Nat.lt_succ_of_le h)
  · intro count tuples h
    simp only [bpfprog, Prog.new, List.length_map]
    exact Nat.mod_eq_of_lt (Nat.lt_succ_of_le h)

/-- Claim C1, witness: a one-tuple program built with the deliberately
mismatched count hint `99` still records length `1`. -/
theorem C1_witness : (bpfprog 99 [(6, 0, 0, 1)]).len = 1 := by
  have h := C1_theorem.2 99 [(6, 0, 0, 1)] (by decide)
  simpa using h

/-- Claim C2, code evaluated at the failing input: `attach_filter` passes a
pointer to the whole `Prog` struct with `optlen = size_of_val(&prog)` =
`size_of::<Prog>()` = 32 bytes (the hidden `_ops` owning field included),
whereas the kernel's length-plus-pointer `sock_fprog` record is 16 bytes;
the option length therefore differs from the size of that representation. -/
theorem C2_code_bug :
    (attachCall 3 (Prog.new [Op.new 6 0 0 1])).optlen = size_of_Prog ∧
    size_of_Prog = 32 ∧ size_of_sock_fprog = 16 ∧
    (attachCall 3 (Prog.new [Op.new 6 0 0 1])).optlen ≠ size_of_sock_fprog := by
  exact ⟨rfl, by decide, by decide, by decide⟩

/-- Claim C3: for each of `attach_filter`, `detach_filter`, `lock_filter`,
the result is `Ok(())` iff the single underlying `setsockopt` returns zero;
any nonzero return yields exactly the one OS-error kind carrying the
platform's last error code, as a result value (the functions are total). -/
theorem C3_theorem :
    ∀ (os : OS) (fd : Int) (prog : Prog),
      ((attach_filter os fd prog).1 = Except.ok () ↔
        os.sockRet (attachCall fd prog) = 0) ∧
      (os.sockRet (attachCall fd prog) ≠ 0 →
        (attach_filter os fd prog).1 = Except.error (Error.osError os.lastOsError)) ∧
      ((detach_filter os fd).1 = Except.ok () ↔ os.sockRet (detachCall fd) = 0) ∧
      (os.sockRet (detachCall fd) ≠ 0 →
        (detach_filter os fd).1 = Except.error (Error.osError os.lastOsError)) ∧
      ((lock_filter os fd).1 = Except.ok () ↔ os.sockRet (lockCall fd) = 0) ∧
      (os.sockRet (lockCall fd) ≠ 0 →
        (lock_filter os fd).1 = Except.error (Error.osError os.lastOsError)) ∧
      (attach_filter os fd prog).2.length = 1 ∧
      (detach_filter os fd).2.length = 1 ∧
      (lock_filter os fd).2.length = 1 := by
  intro os fd prog
  refine ⟨?_, ?_, ?_, ?_, ?_, ?_, rfl, rfl, rfl⟩ <;>
    simp only [attach_filter, detach_filter, lock_filter] <;>
    split <;> simp_all

/-- Claim C3, witness: against an OS oracle that always fails with error
code 13, `attach_filter` returns exactly `Err(os_error(13))`. -/
theorem C3_witness :
    (attach_filter osAlwaysFail 3 (Prog.new [])).1
      = Except.error (Error.osError 13) := by
  have h := (C3_theorem osAlwaysFail 3 (Prog.new [])).2.1
  exact h (by simp [osAlwaysFail])

/-- Claim C4: on the null variant, `attach_filter`, `detach_filter` and
`lock_filter` return `Ok(())` for every descriptor and every `Prog`
(including one built from zero operations) and issue no system call. -/
theorem C4_theorem :
    ∀ (fd : Int) (prog : Dummy.Prog),
      Dummy.attach_filter fd prog = (Except.ok (), []) ∧
      Dummy.detach_filter fd = (Except.ok (), []) ∧
      Dummy.lock_filter fd = (Except.ok (), []) ∧
      Dummy.attach_filter fd (Dummy.bpfprog 0 []) = (Except.ok (), []) := by
  intro fd prog
  exact ⟨rfl, rfl, rfl, rfl⟩

/-- Claim C5: `detach_filter` issues the detach-filter option at
`SOL_SOCKET` level with a null option value and zero length, as its single
syscall, and succeeds iff that call returns zero. -/
theorem C5_theorem :
    ∀ (os : OS) (fd : Int),
      detachCall fd = { fd := fd, level := SOL_SOCKET,
                        optname := SO_DETACH_FILTER, optval := OptVal.null,
                        optlen := 0 } ∧
      (detach_filter os fd).2 = [detachCall fd] ∧
      ((detach_filter os fd).1 = Except.ok () ↔ os.sockRet (detachCall fd) = 0) := by
  intro os fd
  refine ⟨rfl, rfl, ?_⟩
  simp only [detach_filter]
  split <;> simp_all

/-- Claim C5, witness: against an always-succeeding OS oracle, detaching on
descriptor 5 returns `Ok(())`. -/
theorem C5_witness : (detach_filter osAlwaysOk 5).1 = Except.ok () := by
  exact (C5_theorem osAlwaysOk 5).2.2.mpr rfl

/-- Claim C6: `lock_filter` issues the lock-filter option at `SOL_SOCKET`
level with option value exactly the integer `1` (a `c_int`, length 4), and
no operation of the public surface ever issues a lock-filter option with
any other value — there is no inverse unlock operation. -/
theorem C6_theorem :
    ∀ (os : OS) (fd : Int) (prog : Prog),
      lockCall fd = { fd := fd, level := SOL_SOCKET, optname := SO_LOCK_FILTER,
                      optval := OptVal.intVal 1, optlen := size_of_c_int } ∧
      (lock_filter os fd).2 = [lockCall fd] ∧
      (∀ c ∈ (attach_filter os fd prog).2 ++ (detach_filter os fd).2
              ++ (lock_filter os fd).2,
        c.optname = SO_LOCK_FILTER → c.optval = OptVal.intVal 1) := by
  intro os fd prog
  refine ⟨rfl, rfl, ?_⟩
  intro c hc
  simp only [attach_filter, detach_filter, lock_filter, List.cons_append,
    List.nil_append, List.mem_cons, List.not_mem_nil, or_false] at hc
  rcases hc with h | h | h <;> subst h <;>
    simp [attachCall, detachCall, lockCall, SO_ATTACH_FILTER,
      SO_DETACH_FILTER, SO_LOCK_FILTER]

/-- Claim C6, witness: the lock syscall on descriptor 7 carries option
value `1`. -/
theorem C6_witness : (lockCall 7).optval = OptVal.intVal 1 := by
  have h := (C6_theorem osAlwaysOk 7 (Prog.new [])).1
  rw [h]

/-- Claim C7: the blanket `BpfFilterAttachable` methods are extensionally
equal to the free functions applied to the value's raw descriptor. -/
theorem C7_theorem :
    ∀ {α : Type} [AsRawFd α] (os : OS) (sf : α) (prog : Prog),
      BpfFilterAttachable.attach_filter os sf prog
        = attach_filter os (AsRawFd.as_raw_fd sf) prog ∧
      BpfFilterAttachable.detach_filter os sf
        = detach_filter os (AsRawFd.as_raw_fd sf) ∧
      BpfFilterAttachable.lock_filter os sf
        = lock_filter os (AsRawFd.as_raw_fd sf) := by
  intro α inst os sf prog
  exact ⟨rfl, rfl, rfl⟩

/-- Claim C7, witness: on a concrete socket-like value with descriptor 4,
the blanket attach method equals the free function at descriptor 4. -/
theorem C7_witness :
    BpfFilterAttachable.attach_filter osAlwaysOk (SocketLike.mk 4) (Prog.new [])
      = attach_filter osAlwaysOk 4 (Prog.new []) := by
  exact (C7_theorem osAlwaysOk (SocketLike.mk 4) (Prog.new [])).1

/-- Claim C8: the null-variant `bpfprog!` macro discards the count hint and
every operation tuple, always yielding the unit `Prog`; any two null-variant
programs are equal. -/
theorem C8_theorem :
    ∀ (count : Nat) (tuples : List (Nat × Nat × Nat × Nat))
      (p q : Dummy.Prog),
      Dummy.bpfprog count tuples = Dummy.Prog.default ∧ p = q := by
  intro count tuples p q
  exact ⟨rfl, by cases p; cases q; rfl⟩

/-- Claim C9: construction of `Op` and `Prog` is total with no error path:
`Op::new` returns a value whose four fields equal exactly the supplied
arguments, and `Prog::new` returns a `Prog` holding the supplied
operations. -/
theorem C9_theorem :
    ∀ (code jt jf k : Nat) (ops : List Op),
      (Op.new code jt jf k).code = code ∧
      (Op.new code jt jf k).jt = jt ∧
      (Op.new code jt jf k).jf = jf ∧
      (Op.new code jt jf k).k = k ∧
      (Prog.new ops)._ops = some ops := by
  intro code jt jf k ops
  exact ⟨rfl, rfl, rfl, rfl, rfl⟩

/-- Claim C10: `Prog::new` stores the operation count through an unchecked
narrowing cast to the 16-bit `c_ushort` field: the recorded length equals
the vector's length modulo `2^16`, and for any vector of more than 65535
operations it silently differs from the actual number of operations. -/
theorem C10_theorem :
    ∀ ops : List Op,
      (Prog.new ops).len = ops.length % 65536 ∧
      (65535 < ops.length → (Prog.new ops).len ≠ ops.length) := by
  intro ops
  refine ⟨rfl, fun h => ?_⟩
  have hlt : ops.length % 65536 < ops.length :=
    lt_of_lt_of_le (Nat.mod_lt _ (by norm_num)) h
  simpa [Prog.new] using Nat.ne_of_lt hlt

/-- Claim C10, witness: a vector of 70000 operations yields a recorded
length different from 70000 (it is 4464). -/
theorem C10_witness :
    (Prog.new (List.replicate 70000 (Op.new 6 0 0 1))).len ≠ 70000 := by
  have h := (C10_theorem (List.replicate 70000 (Op.new 6 0 0 1))).2
  simp only [List.length_replicate] at h
  exact h (by norm_num)
